import Mathlib

/-!
Verification of the `dtc-py` DTC protocol client against its specification.

The development shallowly embeds the Python sources:
  * `src/dtc_client/message.py`   — JSON message model, registry, encode/decode
  * `src/dtc_client/protocol.py`  — binary handshake records, message dataclasses
  * `src/dtc_client/client.py`    — connection state, send, frame splitter,
    read_message, wait_for

Conventions of the embedding:
  * Python `bytes` become `List Nat` (each entry one byte value).
  * Python dicts produced / consumed by the external `json` library become
    association lists `Frame := List (String × DTCValue)` in key order; the
    textual JSON serialisation itself is an out-of-scope collaborator
    (`json.dumps` / `json.loads` are inverse on such dicts), so encode/decode
    are modelled at the dict level.
  * A dataclass message instance becomes its type id together with a map from
    field names to `Option DTCValue` (`none` = Python `None`).
  * Fallible Python code (functions that can raise) returns `Except String _`.
-/

/-- A JSON scalar value carried in a DTC message field.  Floats are carried
symbolically as decimal mantissa/exponent pairs; none of the verified
properties inspect float arithmetic. -/
inductive DTCValue where
  | intV (i : Int)
  | strV (s : String)
  | floatV (mantissa : Int) (exponent : Int)
  | boolV (b : Bool)
deriving DecidableEq, Repr

abbrev FieldName := String

abbrev Schema := List FieldName

/-- A decoded JSON object, as the external `json` library hands it over:
key/value pairs in key order (Python dicts preserve insertion order and have
unique keys). -/
abbrev Frame := List (FieldName × DTCValue)

/-- The message registry from `message.py`, as populated by the dataclass
declarations in `protocol.py` (each `DTCMessage` subclass with a non-`None`
`type_id` registers its ordered field list; every field default is `None`). -/
def MESSAGE_MAP : List (Int × Schema) := [
  (1, ["ProtocolVersion", "Username", "Password", "GeneralTextData", "Integer_1", "Integer_2", "HeartbeatIntervalInSeconds", "TradeAccount", "HardwareIdentifier", "ClientName", "MarketDataTransmissionInterval"]),
  (2, ["ProtocolVersion", "Result", "ResultText", "ReconnectAddress", "Integer_1", "ServerName", "MarketDepthUpdatesBestBidAndAsk", "TradingIsSupported", "OCOOrdersSupported", "OrderCancelReplaceSupported", "SymbolExchangeDelimiter", "SecurityDefinitionsSupported", "HistoricalPriceDataSupported", "ResubscribeWhenMarketDataFeedAvailable", "MarketDepthIsSupported", "OneHistoricalPriceDataRequestPerConnection", "BracketOrdersSupported", "UsesMultiplePositionsPerSymbolAndTradeAccount", "MarketDataSupported"]),
  (3, ["NumDroppedMessages", "CurrentDateTime"]),
  (5, ["Reason", "DoNotReconnect"]),
  (100, ["Status"]),
  (101, ["RequestAction", "SymbolID", "Symbol", "Exchange", "IntervalForSnapshotUpdatesInMilliseconds"]),
  (102, ["RequestAction", "SymbolID", "Symbol", "Exchange", "NumLevels"]),
  (103, ["SymbolID", "RejectText"]),
  (104, ["SymbolID", "SessionSettlementPrice", "SessionOpenPrice", "SessionHighPrice", "SessionLowPrice", "SessionVolume", "SessionNumTrades", "OpenInterest", "BidPrice", "AskPrice", "AskQuantity", "BidQuantity", "LastTradePrice", "LastTradeVolume", "LastTradeDateTime", "BidAskDateTime", "SessionSettlementDateTime", "TradingSessionDate", "TradingStatus", "MarketDepthUpdateDateTime"]),
  (106, ["SymbolID", "Side", "Price", "Quantity", "UpdateType", "DateTime", "NumOrders", "FinalUpdateInBatch", "Level"]),
  (107, ["SymbolID", "AtBidOrAsk", "Price", "Volume", "DateTime"]),
  (108, ["SymbolID", "BidPrice", "BidQuantity", "AskPrice", "AskQuantity", "DateTime"]),
  (112, ["Price", "Volume", "DateTime", "SymbolID", "AtBidOrAsk"]),
  (113, ["SymbolID", "Volume", "TradingSessionDate", "IsFinalSessionVolume"]),
  (114, ["SymbolID", "Price", "TradingSessionDate"]),
  (115, ["SymbolID", "Price", "TradingSessionDate"]),
  (116, ["SymbolID", "Status"]),
  (117, ["BidPrice", "BidQuantity", "AskPrice", "AskQuantity", "DateTime", "SymbolID"]),
  (119, ["SymbolID", "Price", "DateTime"]),
  (120, ["SymbolID", "Price", "TradingSessionDate"]),
  (121, ["SymbolID", "RejectText"]),
  (122, ["SymbolID", "Side", "Price", "Quantity", "Level", "IsFirstMessageInBatch", "IsLastMessageInBatch", "DateTime", "NumOrders"]),
  (124, ["SymbolID", "OpenInterest", "TradingSessionDate"]),
  (134, ["SymbolID", "LastTradePrice", "LastTradeVolume", "LastTradeDateTime"]),
  (135, ["SymbolID", "NumTrades", "TradingSessionDate"]),
  (136, ["SymbolID", "Date"]),
  (137, ["SymbolID", "AtBidOrAsk", "UnbundledTradeIndicator", "TradeCondition", "Reserve_1", "Reserve_2", "Price", "Volume", "Reserve_3", "DateTime"]),
  (138, ["SymbolID", "Status"]),
  (140, ["SymbolID", "DateTime", "Price", "Quantity", "Side", "UpdateType", "NumOrders", "FinalUpdateInBatch", "Level"]),
  (141, ["SymbolID", "Price", "Quantity", "NumOrders", "Side", "UpdateType", "FinalUpdateInBatch", "Level"]),
  (142, ["SymbolID", "Price", "Volume", "AtBidOrAsk", "UnbundledTradeIndicator", "TradeCondition"]),
  (143, ["SymbolID", "BidPrice", "BidQuantity", "AskPrice", "AskQuantity"]),
  (144, ["SymbolID", "BidPrice", "BidQuantity", "AskPrice", "AskQuantity", "DateTime"]),
  (145, ["SymbolID", "Price", "Quantity", "NumOrders", "Level", "Side", "FinalUpdateInBatch"]),
  (146, ["SymbolID", "Price", "Volume", "DateTime", "AtBidOrAsk", "UnbundledTradeIndicator", "TradeCondition"]),
  (150, ["RequestAction", "SymbolID", "Symbol", "Exchange", "SendQuantitiesGreaterOrEqualTo"]),
  (151, ["SymbolID", "RejectText"]),
  (152, ["SymbolID", "Side", "Quantity", "Price", "OrderID", "DateTime"]),
  (153, ["SymbolID", "Side", "Quantity", "Price", "OrderID", "PriorPrice", "PriorQuantity", "PriorOrderID", "DateTime"]),
  (154, ["SymbolID", "Quantity", "Price", "OrderID", "DateTime", "Side"]),
  (155, ["SymbolID", "MessageBoundary"]),
  (201, ["Symbol", "Exchange", "ClientOrderID_1", "OrderType_1", "BuySell_1", "Price1_1", "Price2_1", "Quantity_1", "ClientOrderID_2", "OrderType_2", "BuySell_2", "Price1_2", "Price2_2", "Quantity_2", "TimeInForce", "GoodTillDateTime", "TradeAccount", "IsAutomatedOrder", "ParentTriggerClientOrderID", "FreeFormText", "OpenOrClose", "PartialFillHandling", "UseOffsets", "OffsetFromParent1", "OffsetFromParent2", "MaintainSamePricesOnParentFill", "Price1_1AsString", "Price2_1AsString", "Price1_2AsString", "Price2_2AsString"]),
  (203, ["ServerOrderID", "ClientOrderID", "TradeAccount"]),
  (204, ["ServerOrderID", "ClientOrderID", "Price1", "Price2", "Quantity", "Price1IsSet", "Price2IsSet", "Unused", "TimeInForce", "GoodTillDateTime", "UpdatePrice1OffsetToParent", "TradeAccount", "Price1AsString", "Price2AsString"]),
  (208, ["Symbol", "Exchange", "TradeAccount", "ClientOrderID", "OrderType", "BuySell", "Price1", "Price2", "Quantity", "TimeInForce", "GoodTillDateTime", "IsAutomatedOrder", "IsParentOrder", "FreeFormText", "OpenOrClose", "MaxShowQuantity", "Price1AsString", "Price2AsString", "IntendedPositionQuantity"]),
  (209, ["Symbol", "Exchange", "TradeAccount", "ClientOrderID", "FreeFormText", "IsAutomatedOrder"]),
  (300, ["RequestID", "RequestAllOrders", "ServerOrderID", "TradeAccount"]),
  (301, ["RequestID", "TotalNumMessages", "MessageNumber", "Symbol", "Exchange", "PreviousServerOrderID", "ServerOrderID", "ClientOrderID", "ExchangeOrderID", "OrderStatus", "OrderUpdateReason", "OrderType", "BuySell", "Price1", "Price2", "TimeInForce", "GoodTillDateTime", "OrderQuantity", "FilledQuantity", "RemainingQuantity", "AverageFillPrice", "LastFillPrice", "LastFillDateTime", "LastFillQuantity", "LastFillExecutionID", "TradeAccount", "InfoText", "NoOrders", "ParentServerOrderID", "OCOLinkedOrderServerOrderID", "OpenOrClose", "PreviousClientOrderID", "FreeFormText", "OrderReceivedDateTime", "LatestTransactionDateTime", "Username"]),
  (302, ["RequestID", "RejectText"]),
  (303, ["RequestID", "ServerOrderID", "NumberOfDays", "TradeAccount", "StartDateTime"]),
  (304, ["RequestID", "TotalNumberMessages", "MessageNumber", "Symbol", "Exchange", "ServerOrderID", "BuySell", "Price", "DateTime", "Quantity", "UniqueExecutionID", "TradeAccount", "OpenClose", "NoOrderFills", "InfoText", "HighPriceDuringPosition", "LowPriceDuringPosition", "PositionQuantity", "Username", "ExchangeOrderID", "SenderSubID"]),
  (305, ["RequestID", "TradeAccount"]),
  (306, ["RequestID", "TotalNumberMessages", "MessageNumber", "Symbol", "Exchange", "Quantity", "AveragePrice", "PositionIdentifier", "TradeAccount", "NoPositions", "Unsolicited", "MarginRequirement", "EntryDateTime", "OpenProfitLoss", "HighPriceDuringPosition", "LowPriceDuringPosition", "QuantityLimit", "MaxPotentialPostionQuantity"]),
  (307, ["RequestID", "RejectText"]),
  (308, ["RequestID", "RejectText"]),
  (309, ["Symbol", "Exchange", "TradeAccount", "ClientOrderID", "BuySell", "FillPrice", "FillQuantity", "FreeFormText"]),
  (310, ["ClientOrderID", "ResultText", "IsError"]),
  (400, ["RequestID"]),
  (401, ["TotalNumberMessages", "MessageNumber", "TradeAccount", "RequestID", "TradingIsDisabled"]),
  (500, ["RequestID"]),
  (501, ["RequestID", "Exchange", "IsFinalMessage", "Description"]),
  (502, ["RequestID", "Exchange", "SecurityType", "RequestAction", "Symbol"]),
  (503, ["RequestID", "Exchange", "SecurityType"]),
  (504, ["RequestID", "UnderlyingSymbol", "Exchange", "SecurityType"]),
  (506, ["RequestID", "Symbol", "Exchange"]),
  (507, ["RequestID", "Symbol", "Exchange", "SecurityType", "Description", "MinPriceIncrement", "PriceDisplayFormat", "CurrencyValuePerIncrement", "IsFinalMessage", "FloatToIntPriceMultiplier", "IntToFloatPriceDivisor", "UnderlyingSymbol", "UpdatesBidAskOnly", "StrikePrice", "PutOrCall", "ShortInterest", "SecurityExpirationDate", "BuyRolloverInterest", "SellRolloverInterest", "EarningsPerShare", "SharesOutstanding", "IntToFloatQuantityDivisor", "HasMarketDepthData", "DisplayPriceMultiplier", "ExchangeSymbol", "InitialMarginRequirement", "MaintenanceMarginRequirement", "Currency", "ContractSize", "OpenInterest", "RolloverDate", "IsDelayed", "SecurityIdentifier", "ProductIdentifier"]),
  (508, ["RequestID", "SearchText", "Exchange", "SecurityType", "SearchType"]),
  (509, ["RequestID", "RejectText"]),
  (600, ["RequestID", "CashBalance", "BalanceAvailableForNewPositions", "AccountCurrency", "TradeAccount", "SecuritiesValue", "MarginRequirement", "TotalNumberMessages", "MessageNumber", "NoAccountBalances", "Unsolicited", "OpenPositionsProfitLoss", "DailyProfitLoss", "InfoText", "TransactionIdentifier", "DailyNetLossLimit", "TrailingAccountValueToLimitPositions", "DailyNetLossLimitReached", "IsUnderRequiredMargin", "ClosePositionsAtEndOfDay", "TradingIsDisabled", "Description", "IsUnderRequiredAccountValue", "TransactionDateTime", "MarginRequirementFull", "MarginRequirementFullPositionsOnly", "PeakMarginRequirement", "IntroducingBroker"]),
  (601, ["RequestID", "TradeAccount"]),
  (602, ["RequestID", "RejectText"]),
  (603, ["RequestID", "TradeAccount", "StartDateTime"]),
  (604, ["RequestID", "RejectText"]),
  (606, ["RequestID", "DateTime", "CashBalance", "AccountCurrency", "TradeAccount", "IsFinalResponse", "NoAccountBalances", "InfoText", "TransactionId"]),
  (607, ["RequestID", "TradeAccount", "CreditAmount", "DebitAmount", "Currency", "Reason", "RecalculateDailyLossLimit"]),
  (608, ["RequestID", "RejectText", "TradeAccount"]),
  (609, ["RequestID", "TransactionID", "TradeAccount", "NewBalance"]),
  (700, ["UserMessage", "IsPopupMessage"]),
  (701, ["MessageText"]),
  (702, ["MessageText", "TradeAccount"]),
  (703, ["JournalEntry", "DateTime"]),
  (704, ["RequestID", "StartDateTime"]),
  (705, ["RequestID", "RejectText"]),
  (706, ["JournalEntry", "DateTime", "IsFinalResponse"]),
  (800, ["RequestID", "Symbol", "Exchange", "RecordInterval", "StartDateTime", "EndDateTime", "MaxDaysToReturn", "UseZLibCompression", "RequestDividendAdjustedStockData", "Integer_1"]),
  (801, ["RequestID", "RecordInterval", "UseZLibCompression", "NoRecordsToReturn", "IntToFloatPriceDivisor"]),
  (802, ["RequestID", "RejectText", "RejectReasonCode", "RetryTimeInSeconds"]),
  (803, ["RequestID", "StartDateTime", "OpenPrice", "HighPrice", "LowPrice", "LastPrice", "Volume", "OpenInterest", "NumTrades", "BidVolume", "AskVolume", "IsFinalRecord"]),
  (804, ["RequestID", "DateTime", "AtBidOrAsk", "Price", "Volume", "IsFinalRecord"]),
  (807, ["RequestID", "FinalRecordLastDateTime"]),
  (900, ["RequestID", "Symbol", "Exchange", "StartDateTime", "EndDateTime", "UseZLibCompression", "Integer_1"]),
  (901, ["RequestID", "UseZLibCompression", "NoRecordsToReturn"]),
  (902, ["RequestID", "RejectText", "RejectReasonCode"]),
  (903, ["RequestID", "StartDateTime", "Command", "Flags", "NumOrders", "Price", "Quantity", "IsFinalRecord"])
]

/-- `dict.get(key)`: the value at the first (only) occurrence of `key`. -/
def lookupField (k : FieldName) (fr : Frame) : Option DTCValue :=
  (fr.find? (fun p => p.1 == k)).map (·.2)

/-- `MESSAGE_MAP[t]` — registry lookup by type id. -/
def lookupSchema (t : Int) : Option Schema :=
  (MESSAGE_MAP.find? (fun p => p.1 == t)).map (·.2)

/-- The result of `DTCMessage.from_json`: either an instance of the registered
dataclass for the frame's type id (each schema field mapped to its decoded
value, `none` when absent) or a `GenericDTCMessage` (which holds only its
`Type` value). -/
inductive DTCMsg where
  | typed (tid : Int) (fields : List (FieldName × Option DTCValue))
  | generic (typeVal : DTCValue)
deriving DecidableEq, Repr

/-- `GenericDTCMessage(**data)`: the dataclass has the single field `Type`,
so construction succeeds only when the frame's keys are exactly `{Type}`;
any extra key raises `TypeError: unexpected keyword argument` and a missing
`Type` raises `TypeError: missing required argument`. -/
def genericInit (frame : Frame) : Except String DTCMsg :=
  if frame.all (fun p => p.1 == "Type") then
    match lookupField "Type" frame with
    | some v => .ok (.generic v)
    | none => .error "TypeError: missing required argument Type"
  else .error "TypeError: unexpected keyword argument"

/-- Python truthiness of a JSON scalar (`0`, `""`, `False` are falsy). -/
def isFalsy : DTCValue → Bool
  | .intV i => i == 0
  | .strV s => s == ""
  | .floatV m _ => m == 0
  | .boolV b => !b

/-- The registry dispatch of `DTCMessage.from_json` once the numeric type id
is in hand: a registered type keeps only its schema's keys (forward
compatibility; `cls(**filtered_data)`, every field defaulting to `None`);
an unregistered id falls back to `GenericDTCMessage(**data)`. -/
def fromJsonDispatch (t : Int) (frame : Frame) : Except String DTCMsg :=
  match lookupSchema t with
  | some schema =>
    .ok (.typed t (schema.map (fun f => (f, lookupField f frame))))
  | none => genericInit frame

/-- `DTCMessage.from_json` (message.py) at the dict level: read the frame's
`Type` value (`data.get("Type")`) and dispatch through `MESSAGE_MAP`.  A
Python `bool` type id compares equal to the ints `0`/`1`, mirroring
`msg_type in MESSAGE_MAP`; any other non-integer `Type` (or a missing one) is
never a registry key and falls to `GenericDTCMessage(**data)`. -/
def from_json (frame : Frame) : Except String DTCMsg :=
  match lookupField "Type" frame with
  | some (.intV t) => fromJsonDispatch t frame
  | some (.boolV b) => fromJsonDispatch (if b then 1 else 0) frame
  | _ => genericInit frame

/-- `DTCMessage.to_json` (message.py) at the dict level, for an instance of a
registered dataclass with type id `tid`, ordered field list `schema` and field
values `m`: drop `Size`, drop `None` values, then emit `Type` first followed by
the remaining fields in schema order.  The `Type` value is
`data.get("Type") or getattr(self, "Type", 0)` — for registered classes `Type`
is a class attribute equal to the type id, not a dataclass field. -/
def to_json (tid : Int) (schema : Schema) (m : FieldName → Option DTCValue) : Frame :=
  let typeValue : DTCValue :=
    match (if schema.contains "Type" then m "Type" else none) with
    | some v => if isFalsy v then .intV tid else v
    | none => .intV tid
  ("Type", typeValue) ::
    schema.filterMap (fun f =>
      if f == "Size" || f == "Type" then none
      else (m f).map (fun v => (f, v)))

theorem message_map_wf :
    MESSAGE_MAP.all (fun p => !(p.2.contains "Type") && !(p.2.contains "Size")) = true := by
  rfl

/-! ## Binary handshake records (protocol.py) -/

/-- `struct.pack "<H"`: one unsigned little-endian 16-bit integer; raises
`struct.error` when the value is out of range. -/
def packU16 (n : Int) : Except String (List Nat) :=
  if n < 0 ∨ 65536 ≤ n then .error "struct.error: argument out of range"
  else .ok [n.toNat % 256, n.toNat / 256 % 256]

/-- `struct.pack "<i"`: one signed little-endian 32-bit integer
(two's complement); raises `struct.error` when out of range. -/
def packI32 (i : Int) : Except String (List Nat) :=
  if i < -(2 ^ 31) ∨ 2 ^ 31 ≤ i then .error "struct.error: argument out of range"
  else
    let u := (i % 2 ^ 32).toNat
    .ok [u % 256, u / 256 % 256, u / 2 ^ 16 % 256, u / 2 ^ 24 % 256]

/-- `str.encode("ascii")`: byte values of the characters; raises on any
character above 127. -/
def encodeAscii (s : String) : Except String (List Nat) :=
  if s.toList.all (fun c => c.toNat < 128) then .ok (s.toList.map Char.toNat)
  else .error "UnicodeEncodeError: ascii codec"

/-- `bytes[:4].ljust(4, b"\\x00")`: truncate to 4 bytes, pad with NULs. -/
def truncPad4 (bs : List Nat) : List Nat :=
  bs.take 4 ++ List.replicate (4 - (bs.take 4).length) 0

/-- The `s_EncodingRequest` dataclass of protocol.py, with its defaults. -/
structure EncodingRequest where
  ProtocolVersion : Int := 8
  Encoding : Int := 2
  ProtocolType : String := "DTC"
  «Type» : Int := 6
deriving DecidableEq, Repr

/-- `EncodingRequest.to_binary`: `struct.pack("<HHi i 4s", size, Type,
ProtocolVersion, Encoding, proto_bytes)` where `size = struct.calcsize fmt
= 16` and `proto_bytes = ProtocolType.encode("ascii")[:4].ljust(4, b"\\x00")`. -/
def EncodingRequest.to_binary (req : EncodingRequest) : Except String (List Nat) := do
  let sizeB ← packU16 16
  let typeB ← packU16 req.«Type»
  let verB ← packI32 req.ProtocolVersion
  let encB ← packI32 req.Encoding
  let protoAscii ← encodeAscii req.ProtocolType
  .ok (sizeB ++ typeB ++ verB ++ encB ++ truncPad4 protoAscii)

/-- `struct.unpack "<H"` of two bytes, little-endian. -/
def unpackU16 (b0 b1 : Nat) : Nat := b0 + 256 * b1

/-- `struct.unpack "<i"` of four bytes, little-endian two's complement. -/
def unpackI32 (b0 b1 b2 b3 : Nat) : Int :=
  let u := b0 + 256 * b1 + 65536 * b2 + 16777216 * b3
  if u < 2 ^ 31 then (u : Int) else (u : Int) - 2 ^ 32

/-- `bytes.rstrip(b"\\x00")`: drop trailing zero bytes. -/
def rstripNul (bs : List Nat) : List Nat :=
  (bs.reverse.dropWhile (fun b => b == 0)).reverse

/-- `bytes.decode("ascii")`: raises on any byte above 127. -/
def decodeAscii (bs : List Nat) : Except String String :=
  if bs.all (fun b => b < 128) then
    .ok (String.mk (bs.map Char.ofNat))
  else .error "UnicodeDecodeError: ascii codec"

/-- The `s_EncodingResponse` dataclass of protocol.py, with its defaults. -/
structure EncodingResponse where
  ProtocolVersion : Int := 8
  Encoding : Int := 0
  ProtocolType : String := "DTC"
  «Type» : Int := 7
deriving DecidableEq, Repr

/-- `EncodingResponse.from_binary`: reject a byte count other than
`struct.calcsize("<HHi i 4s") = 16`; unpack little-endian; reject a message
type other than `ENCODING_RESPONSE = 7`; then build the dataclass (its `Type`
field keeps the default 7). -/
def EncodingResponse.from_binary (data : List Nat) : Except String EncodingResponse :=
  if data.length ≠ 16 then .error "ValueError: Expected 16 bytes"
  else if unpackU16 (data.getD 2 0) (data.getD 3 0) ≠ 7 then
    .error "ValueError: Expected Message Type 7"
  else
    match decodeAscii (rstripNul (data.drop 12)) with
    | .error e => .error e
    | .ok proto =>
      .ok { ProtocolVersion :=
              unpackI32 (data.getD 4 0) (data.getD 5 0) (data.getD 6 0) (data.getD 7 0),
            Encoding :=
              unpackI32 (data.getD 8 0) (data.getD 9 0) (data.getD 10 0) (data.getD 11 0),
            ProtocolType := proto }

/-! ## Client (client.py)

The socket itself is an external collaborator: `connect` is given the bytes
that `_recv_exact(16)` returned, `_read_socket` is given the chunk that
`sock.recv(4096)` returned (`none` models `socket.timeout`), and a successful
`sock.sendall` is assumed on the send path (a write failure only matters for
claims about marking the connection lost, which none of the claims below
exercise beyond the zero-length-read path). -/

/-- `MessageType.HEARTBEAT` (constants.py). -/
def HEARTBEAT : Int := 3

/-- `MessageType.LOGON_RESPONSE` (constants.py). -/
def LOGON_RESPONSE : Int := 2

/-- The mutable state a `DTCClient` instance owns, with the initial values
set by `DTCClient.__init__`. -/
structure ClientState where
  connected : Bool := false
  encoding : Int := 0
  current_request_id : Int := 1
  current_order_id : Int := 1
  buffer : List Nat := []
  queue : List DTCMsg := []
deriving DecidableEq, Repr

/-- `DTCClient.__init__`: not connected, binary encoding, both counters 1,
empty buffer and queue. -/
def initState : ClientState := {}

/-- `DTCClient.connect`, from the point where `_recv_exact(16)` has returned
`responseData` (the TCP connect and the sending of
`EncodingRequest(Encoding=JSON).to_binary()` are external I/O that precede
it): an empty response raises, a malformed response makes
`EncodingResponse.from_binary` raise, a response whose `Encoding` is not
`JSON_ENCODING = 2` raises; only on success are `encoding` switched to JSON
and `connected` set. -/
def DTCClient.connect (st : ClientState) (responseData : List Nat) :
    Except String ClientState :=
  if responseData.isEmpty then
    .error "ConnectionError: Failed to receive Encoding Response"
  else
    match EncodingResponse.from_binary responseData with
    | .error e => .error e
    | .ok resp =>
      if resp.Encoding ≠ 2 then .error "Server refused JSON encoding"
      else .ok { st with connected := true, encoding := 2 }

/-- The client state after a `connect` attempt: a raised exception leaves the
state as it was (in particular `connected` keeps its previous value). -/
def connectState (st : ClientState) (responseData : List Nat) : ClientState :=
  match DTCClient.connect st responseData with
  | .ok st' => st'
  | .error _ => st

/-- A dataclass message instance on the send path: its registered type id,
its ordered field list, and its current field values.
`hasattr(message, f)` for a field name is `f ∈ schema`. -/
structure TypedMsg where
  tid : Int
  schema : Schema
  fields : FieldName → Option DTCValue

/-- `DTCClient.send`: raise `Exception("Not connected")` first (before
serialising or touching the socket); optionally stamp `RequestID` from
`current_request_id` and increment it; optionally stamp a generated
`ClientOrderID` (`"ORDER_<epoch-millis>_<seq>"`) and increment
`current_order_id`; serialise with `to_json`; re-check `connected` under the
socket lock; write.  Returns the new state, the (possibly stamped) message
and the frame written to the wire. -/
def DTCClient.send (st : ClientState) (message : TypedMsg)
    (set_request_id : Bool) (set_order_id : Bool) (nowMillis : Int) :
    Except String (ClientState × TypedMsg × Frame) :=
  if ¬ st.connected then .error "Exception: Not connected"
  else
    let stampReq := set_request_id && message.schema.contains "RequestID"
    let msg1 : TypedMsg :=
      if stampReq then
        { message with fields := fun f =>
            if f == "RequestID" then some (.intV st.current_request_id)
            else message.fields f }
      else message
    let st1 :=
      if stampReq then { st with current_request_id := st.current_request_id + 1 }
      else st
    let stampOrd := set_order_id && message.schema.contains "ClientOrderID"
    let msg2 : TypedMsg :=
      if stampOrd then
        { msg1 with fields := fun f =>
            if f == "ClientOrderID" then some (.strV ("ORDER_"
              ++ toString nowMillis ++ "_" ++ toString st1.current_order_id))
            else msg1.fields f }
      else msg1
    let st2 :=
      if stampOrd then { st1 with current_order_id := st1.current_order_id + 1 }
      else st1
    let json_data := to_json msg2.tid msg2.schema msg2.fields
    if ¬ st2.connected then .error "ConnectionError: Connection lost before send"
    else .ok (st2, msg2, json_data)

/-- N consecutive `send(message, set_request_id=True)` calls: the list of
`RequestID` values stamped onto the messages, in call order, and the final
state.  A raised exception stops the sequence. -/
def sendSeq : ClientState → List TypedMsg → List Int × ClientState
  | st, [] => ([], st)
  | st, message :: rest =>
    match DTCClient.send st message true false 0 with
    | .error _ => ([], st)
    | .ok (st', msg', _) =>
      let assigned : List Int :=
        match msg'.fields "RequestID" with
        | some (.intV i) => [i]
        | _ => []
      let (ids, stFin) := sendSeq st' rest
      (assigned ++ ids, stFin)

/-- The `while b"\x00" in buffer` loop body of `_read_socket`: split the
accumulated buffer into the complete NUL-terminated segments and the trailing
segment after the last NUL (the remaining buffer). -/
def splitFrames : List Nat → List (List Nat) × List Nat
  | [] => ([], [])
  | b :: rest =>
    let (fs, tail) := splitFrames rest
    if b == 0 then ([] :: fs, tail)
    else
      match fs with
      | [] => ([], b :: tail)
      | f :: fs' => ((b :: f) :: fs', tail)

/-- `DTCClient._read_socket` with `chunk` the result of `sock.recv(4096)`
(`none` = `socket.timeout`, handled as a no-op).  A zero-length read flips
`connected` off (the `ConnectionError("Socket closed")` it raises is caught
by the caller).  Otherwise the chunk is appended to the buffer, every
complete NUL-terminated segment is extracted, non-empty segments are decoded
with `dec` (`json.loads` composed with `DTCMessage.from_json`; a frame that
fails to decode is logged and dropped), and decoded messages are enqueued in
arrival order. -/
def DTCClient.readSocket (dec : List Nat → Option DTCMsg) (st : ClientState)
    (chunk : Option (List Nat)) : ClientState :=
  if ¬ st.connected then st
  else
    match chunk with
    | none => st
    | some [] => { st with connected := false }
    | some bytes =>
      let buf := st.buffer ++ bytes
      let (frames, rest) := splitFrames buf
      { st with
        buffer := rest
        queue := st.queue ++ frames.filterMap (fun f =>
          if f.isEmpty then none else dec f) }

/-- Feeding the reader one received chunk after another. -/
def feedChunks (dec : List Nat → Option DTCMsg) (st : ClientState)
    (chunks : List (List Nat)) : ClientState :=
  chunks.foldl (fun s c => DTCClient.readSocket dec s (some c)) st

/-- `DTCClient.read_message` with the poll loop's iterations counted by
`fuel` (each iteration is one bounded socket read; fuel running out is the
timeout elapsing) and `inc` supplying the chunk each socket read returns:
return the head of the queue when non-empty; stop immediately when
`connected` is false; otherwise read from the socket and loop. -/
def DTCClient.read_message (dec : List Nat → Option DTCMsg) :
    Nat → ClientState → (Nat → Option (List Nat)) → Option DTCMsg × ClientState
  | 0, st, _ => (none, st)
  | fuel + 1, st, inc =>
    if ¬ st.connected then (none, st)
    else
      match st.queue with
      | m :: q => (some m, { st with queue := q })
      | [] => DTCClient.read_message dec fuel (DTCClient.readSocket dec st (inc fuel)) inc

/-- The `msg.Type` attribute of a decoded message: the type id for a
registered dataclass, the stored `Type` value for a `GenericDTCMessage`. -/
def msgTypeVal : DTCMsg → DTCValue
  | .typed tid _ => .intV tid
  | .generic v => v

/-- `DTCClient.wait_for` over the sequence of messages that successive
`read_message` calls deliver (exhausting the list is the timeout elapsing
with no match, returning `found_msg = None`): return the first message whose
`Type` matches; Heartbeat frames are silently consumed (`pass`); any other
non-matching frame is likewise discarded (`pass`). -/
def DTCClient.wait_for (message_type : Int) : List DTCMsg → Option DTCMsg
  | [] => none
  | m :: rest =>
    if msgTypeVal m == .intV message_type then some m
    else if msgTypeVal m == .intV HEARTBEAT then DTCClient.wait_for message_type rest
    else DTCClient.wait_for message_type rest

/-- Shape of a successful `EncodingResponse.from_binary`: the input had
exactly 16 bytes and the `Encoding` field is the little-endian `i32` at
offsets 8..11. -/
theorem from_binary_ok_shape (data : List Nat) (resp : EncodingResponse)
    (h : EncodingResponse.from_binary data = .ok resp) :
    data.length = 16 ∧
    resp.Encoding =
      unpackI32 (data.getD 8 0) (data.getD 9 0) (data.getD 10 0) (data.getD 11 0) := by
  unfold EncodingResponse.from_binary at h
  by_cases hl : data.length ≠ 16
  · rw [if_pos hl] at h; cases h
  · rw [if_neg hl] at h
    by_cases ht : unpackU16 (data.getD 2 0) (data.getD 3 0) ≠ 7
    · rw [if_pos ht] at h; cases h
    · rw [if_neg ht] at h
      rcases hda : decodeAscii (rstripNul (data.drop 12)) with e | proto <;> rw [hda] at h
      · cases h
      · cases h
        exact ⟨by omega, rfl⟩

/-! ## Claim theorems C1, C2, C10 -/

/-- C1 (code_bug), failing input: the frame `{"Type": 999, "Foo": 1}` has an
unregistered type id, so `from_json` falls through to
`GenericDTCMessage(**data)`, which raises `TypeError` on the extra key `Foo`
instead of returning a pass-through record retaining the original keys. -/
theorem from_json_unknown_type_extra_key_raises :
    from_json [("Type", .intV 999), ("Foo", .intV 1)] =
      .error "TypeError: unexpected keyword argument" := by
  rfl

/-- C2, counterexample: encoding the default handshake request
(version 8, JSON encoding 2, tag "DTC") does NOT produce the spec's claimed
bytes `02 00 06 00 08 00 00 00 02 00 00 00 44 54 43 00` — the leading Size
field is the struct's byte size 16 (`10 00`), not 2 (`02 00`). -/
theorem encoding_request_bytes_not_as_claimed :
    EncodingRequest.to_binary {} ≠
      .ok [0x02, 0x00, 0x06, 0x00, 0x08, 0x00, 0x00, 0x00,
           0x02, 0x00, 0x00, 0x00, 0x44, 0x54, 0x43, 0x00] := by
  intro h
  have h' : EncodingRequest.to_binary {} =
      .ok [0x10, 0x00, 0x06, 0x00, 0x08, 0x00, 0x00, 0x00,
           0x02, 0x00, 0x00, 0x00, 0x44, 0x54, 0x43, 0x00] := by rfl
  rw [h'] at h
  simp at h

/-- C2 (amended): encoding the handshake request with version 8, JSON
encoding 2 and tag "DTC" produces exactly the 16 bytes
`10 00 06 00 08 00 00 00 02 00 00 00 44 54 43 00` — little-endian with
Size = 16 (the struct's byte size), Type = 6, version 8, encoding 2,
tag "DTC\0". -/
theorem encoding_request_to_binary_bytes :
    EncodingRequest.to_binary
        { ProtocolVersion := 8, Encoding := 2, ProtocolType := "DTC", «Type» := 6 } =
      .ok [0x10, 0x00, 0x06, 0x00, 0x08, 0x00, 0x00, 0x00,
           0x02, 0x00, 0x00, 0x00, 0x44, 0x54, 0x43, 0x00] := by
  rfl

/-- C9: `EncodingResponse.from_binary` rejects any 16-byte response whose
little-endian message-type field (bytes 2..3) differs from 7
(`ENCODING_RESPONSE`), even before looking at the other fields, and
consequently `connect` also fails on such a response. -/
theorem from_binary_rejects_wrong_type (data : List Nat)
    (hlen : data.length = 16)
    (htype : unpackU16 (data.getD 2 0) (data.getD 3 0) ≠ 7) :
    EncodingResponse.from_binary data = .error "ValueError: Expected Message Type 7" ∧
    ∀ st : ClientState,
      DTCClient.connect st data = .error "ValueError: Expected Message Type 7" := by
  have hfb : EncodingResponse.from_binary data =
      .error "ValueError: Expected Message Type 7" := by
    unfold EncodingResponse.from_binary
    rw [if_neg (by omega), if_pos htype]
  refine ⟨hfb, fun st => ?_⟩
  have hne : data.isEmpty = false := by
    cases data with
    | nil => simp at hlen
    | cons a l => rfl
  unfold DTCClient.connect
  rw [hne, hfb]
  rfl

/-- C9 witness: a concrete 16-byte response with message type 8 (not 7),
correct length and the requested JSON encoding, is rejected by
`from_binary`, and `connect` on it fails for any client state. -/
theorem from_binary_rejects_wrong_type_witness :
    ([16, 0, 8, 0, 8, 0, 0, 0, 2, 0, 0, 0, 68, 84, 67, 0] : List Nat).length = 16 ∧
    unpackU16 (([16, 0, 8, 0, 8, 0, 0, 0, 2, 0, 0, 0, 68, 84, 67, 0] : List Nat).getD 2 0)
      (([16, 0, 8, 0, 8, 0, 0, 0, 2, 0, 0, 0, 68, 84, 67, 0] : List Nat).getD 3 0) ≠ 7 ∧
    DTCClient.connect initState [16, 0, 8, 0, 8, 0, 0, 0, 2, 0, 0, 0, 68, 84, 67, 0] =
      .error "ValueError: Expected Message Type 7" :=
  ⟨by decide, by decide,
    (from_binary_rejects_wrong_type [16, 0, 8, 0, 8, 0, 0, 0, 2, 0, 0, 0, 68, 84, 67, 0]
      (by decide) (by decide)).2 initState⟩

/-- C3: a handshake response with a byte length other than 16, or whose
`Encoding` field (little-endian `i32` at offsets 8..11) differs from the
requested `JSON_ENCODING = 2`, makes `connect` raise, and the `connected`
flag keeps its previous value `false`. -/
theorem connect_fails_on_bad_handshake (st : ClientState) (rd : List Nat)
    (hnc : st.connected = false)
    (h : rd.length ≠ 16 ∨
      unpackI32 (rd.getD 8 0) (rd.getD 9 0) (rd.getD 10 0) (rd.getD 11 0) ≠ 2) :
    (∃ e, DTCClient.connect st rd = .error e) ∧
    (connectState st rd).connected = false := by
  have key : ∃ e, DTCClient.connect st rd = .error e := by
    rcases hni : rd.isEmpty with hfalse | htrue
    · rcases hcase : EncodingResponse.from_binary rd with e | resp
      · refine ⟨e, ?_⟩
        unfold DTCClient.connect
        rw [hni, hcase]
        rfl
      · obtain ⟨hlen16, henc⟩ := from_binary_ok_shape rd resp hcase
        have hne2 : resp.Encoding ≠ 2 := by
          rcases h with hl | he
          · exact absurd hlen16 hl
          · rw [henc]; exact he
        refine ⟨"Server refused JSON encoding", ?_⟩
        unfold DTCClient.connect
        rw [hni, hcase]
        show (if resp.Encoding ≠ 2 then _ else _) = _
        rw [if_pos hne2]
    · refine ⟨"ConnectionError: Failed to receive Encoding Response", ?_⟩
      unfold DTCClient.connect
      rw [hni]
      rfl
  obtain ⟨e, he⟩ := key
  refine ⟨⟨e, he⟩, ?_⟩
  unfold connectState
  rw [he]
  exact hnc

/-- C3 witness: a concrete 16-byte response advertising binary encoding 0
instead of the requested JSON encoding 2 makes `connect` on a fresh client
fail, and the client stays unconnected. -/
theorem connect_fails_on_bad_handshake_witness :
    initState.connected = false ∧
    (([16, 0, 7, 0, 8, 0, 0, 0, 0, 0, 0, 0, 68, 84, 67, 0] : List Nat).length ≠ 16 ∨
      unpackI32 (([16, 0, 7, 0, 8, 0, 0, 0, 0, 0, 0, 0, 68, 84, 67, 0] : List Nat).getD 8 0)
        (([16, 0, 7, 0, 8, 0, 0, 0, 0, 0, 0, 0, 68, 84, 67, 0] : List Nat).getD 9 0)
        (([16, 0, 7, 0, 8, 0, 0, 0, 0, 0, 0, 0, 68, 84, 67, 0] : List Nat).getD 10 0)
        (([16, 0, 7, 0, 8, 0, 0, 0, 0, 0, 0, 0, 68, 84, 67, 0] : List Nat).getD 11 0) ≠ 2) ∧
    ((∃ e, DTCClient.connect initState
        [16, 0, 7, 0, 8, 0, 0, 0, 0, 0, 0, 0, 68, 84, 67, 0] = .error e) ∧
      (connectState initState [16, 0, 7, 0, 8, 0, 0, 0, 0, 0, 0, 0, 68, 84, 67, 0]).connected
        = false) :=
  ⟨rfl, Or.inr (by decide),
    connect_fails_on_bad_handshake initState
      [16, 0, 7, 0, 8, 0, 0, 0, 0, 0, 0, 0, 68, 84, 67, 0] rfl (Or.inr (by decide))⟩

/-- `wait_for` returns the first delivered message whose `Type` matches the
requested type, regardless of what it skips on the way. -/
theorem wait_for_eq_find (t : Int) (msgs : List DTCMsg) :
    DTCClient.wait_for t msgs =
      msgs.find? (fun m => msgTypeVal m == DTCValue.intV t) := by
  induction msgs with
  | nil => rfl
  | cons m rest ih =>
    unfold DTCClient.wait_for
    rw [List.find?_cons]
    by_cases hm : (msgTypeVal m == DTCValue.intV t) = true
    · rw [if_pos hm, hm]
    · have hm' : (msgTypeVal m == DTCValue.intV t) = false := by simpa using hm
      rw [hm']
      by_cases h2 : (msgTypeVal m == DTCValue.intV HEARTBEAT) = true
      · rw [if_neg (by simp [hm']), if_pos h2]
        exact ih
      · rw [if_neg (by simp [hm']), if_neg (by simpa using h2)]
        exact ih

/-- C7: when the inbound stream delivers a Heartbeat frame and then a
`LOGON_RESPONSE` frame, `wait_for(LOGON_RESPONSE)` returns the
`LOGON_RESPONSE` message, silently consuming the Heartbeat; and when no
delivered message has the requested type before the timeout exhausts the
stream, it returns no message. -/
theorem wait_for_skips_heartbeat_and_times_out (hb lr : DTCMsg)
    (hhb : msgTypeVal hb = .intV HEARTBEAT)
    (hlr : msgTypeVal lr = .intV LOGON_RESPONSE) :
    DTCClient.wait_for LOGON_RESPONSE [hb, lr] = some lr ∧
    ∀ msgs : List DTCMsg, (∀ m ∈ msgs, msgTypeVal m ≠ .intV LOGON_RESPONSE) →
      DTCClient.wait_for LOGON_RESPONSE msgs = none := by
  constructor
  · rw [wait_for_eq_find]
    have h1 : (msgTypeVal hb == DTCValue.intV LOGON_RESPONSE) = false := by
      rw [hhb]; decide
    have h2 : (msgTypeVal lr == DTCValue.intV LOGON_RESPONSE) = true := by
      rw [hlr]; decide
    rw [List.find?_cons, h1, List.find?_cons, h2]
  · intro msgs hnone
    rw [wait_for_eq_find]
    apply List.find?_eq_none.mpr
    intro m hm
    simpa using hnone m hm

/-- C7 witness: a concrete Heartbeat then a concrete logon response. -/
theorem wait_for_skips_heartbeat_witness :
    msgTypeVal (.typed 3 [("NumDroppedMessages", some (.intV 0))]) = .intV HEARTBEAT ∧
    msgTypeVal (.typed 2 [("Result", some (.intV 1))]) = .intV LOGON_RESPONSE ∧
    DTCClient.wait_for LOGON_RESPONSE
      [.typed 3 [("NumDroppedMessages", some (.intV 0))],
       .typed 2 [("Result", some (.intV 1))]] =
      some (.typed 2 [("Result", some (.intV 1))]) ∧
    DTCClient.wait_for LOGON_RESPONSE
      [.typed 3 [("NumDroppedMessages", some (.intV 0))]] = none :=
  ⟨rfl, rfl,
    (wait_for_skips_heartbeat_and_times_out
        (.typed 3 [("NumDroppedMessages", some (.intV 0))])
        (.typed 2 [("Result", some (.intV 1))]) rfl rfl).1,
    (wait_for_skips_heartbeat_and_times_out
        (.typed 3 [("NumDroppedMessages", some (.intV 0))])
        (.typed 2 [("Result", some (.intV 1))]) rfl rfl).2
      [.typed 3 [("NumDroppedMessages", some (.intV 0))]] (by decide)⟩

/-- C8: once a zero-length socket read has marked the connection lost, every
subsequent `send` raises `Not connected` at its very first statement (before
serialising or touching the socket, so nothing is written), and every
subsequent `read_message` returns no message immediately — for every
remaining fuel/timeout budget and whatever the socket would deliver — instead
of blocking until the timeout. -/
theorem connection_lost_fails_fast (dec : List Nat → Option DTCMsg)
    (st : ClientState) (hc : st.connected = true) :
    (DTCClient.readSocket dec st (some [])).connected = false ∧
    (∀ message s o n,
      DTCClient.send (DTCClient.readSocket dec st (some [])) message s o n =
        .error "Exception: Not connected") ∧
    (∀ fuel inc,
      DTCClient.read_message dec fuel (DTCClient.readSocket dec st (some [])) inc =
        (none, DTCClient.readSocket dec st (some []))) := by
  have hlost : DTCClient.readSocket dec st (some []) = { st with connected := false } := by
    unfold DTCClient.readSocket
    rw [hc]
    rfl
  rw [hlost]
  refine ⟨rfl, fun message s o n => ?_, fun fuel inc => ?_⟩
  · unfold DTCClient.send
    rfl
  · cases fuel with
    | zero => rfl
    | succ k =>
      unfold DTCClient.read_message
      rfl

/-- C8 witness: a concrete connected client that suffers a zero-length read. -/
theorem connection_lost_fails_fast_witness :
    ({ connected := true } : ClientState).connected = true ∧
    (DTCClient.readSocket (fun _ => none) { connected := true } (some [])).connected = false ∧
    DTCClient.send
        (DTCClient.readSocket (fun _ => none) { connected := true } (some []))
        ⟨3, ["NumDroppedMessages", "CurrentDateTime"], fun _ => none⟩ false false 0 =
      .error "Exception: Not connected" ∧
    DTCClient.read_message (fun _ => none) 1000000
        (DTCClient.readSocket (fun _ => none) { connected := true } (some []))
        (fun _ => none) =
      (none, DTCClient.readSocket (fun _ => none) { connected := true } (some [])) :=
  ⟨rfl,
    (connection_lost_fails_fast (fun _ => none) { connected := true } rfl).1,
    (connection_lost_fails_fast (fun _ => none) { connected := true } rfl).2.1
      ⟨3, ["NumDroppedMessages", "CurrentDateTime"], fun _ => none⟩ false false 0,
    (connection_lost_fails_fast (fun _ => none) { connected := true } rfl).2.2
      1000000 (fun _ => none)⟩

theorem packU16_ok (n : Int) (h0 : 0 ≤ n) (h1 : n < 65536) :
    packU16 n = .ok [n.toNat % 256, n.toNat / 256 % 256] := by
  unfold packU16
  rw [if_neg (by omega)]

theorem packI32_ok (i : Int) (h0 : -(2 ^ 31) ≤ i) (h1 : i < 2 ^ 31) :
    packI32 i = .ok [(i % 2 ^ 32).toNat % 256, (i % 2 ^ 32).toNat / 256 % 256,
      (i % 2 ^ 32).toNat / 2 ^ 16 % 256, (i % 2 ^ 32).toNat / 2 ^ 24 % 256] := by
  unfold packI32
  rw [if_neg (by omega)]

theorem truncPad4_length (bs : List Nat) : (truncPad4 bs).length = 4 := by
  unfold truncPad4
  simp only [List.length_append, List.length_take, List.length_replicate]
  omega

/-- C10: for every `EncodingRequest` whose numeric fields are in the ranges
`struct.pack` accepts and whose `ProtocolType` is ASCII — of any length —
`to_binary` returns exactly 16 bytes, the leading little-endian `u16` Size
field is 16, and the last 4 bytes are the ProtocolType truncated to 4 bytes
or NUL-padded up to 4 bytes. -/
theorem to_binary_always_16_bytes (req : EncodingRequest)
    (ht : 0 ≤ req.«Type» ∧ req.«Type» < 65536)
    (hv : -(2 ^ 31) ≤ req.ProtocolVersion ∧ req.ProtocolVersion < 2 ^ 31)
    (he : -(2 ^ 31) ≤ req.Encoding ∧ req.Encoding < 2 ^ 31)
    (hp : req.ProtocolType.toList.all (fun c => c.toNat < 128) = true) :
    ∃ bs, EncodingRequest.to_binary req = .ok bs ∧
      bs.length = 16 ∧ bs.take 2 = [16, 0] ∧
      bs.drop 12 = truncPad4 (req.ProtocolType.toList.map Char.toNat) := by
  have e5 : encodeAscii req.ProtocolType = .ok (req.ProtocolType.toList.map Char.toNat) := by
    unfold encodeAscii
    rw [if_pos hp]
  refine ⟨[16, 0] ++ [req.«Type».toNat % 256, req.«Type».toNat / 256 % 256]
    ++ [(req.ProtocolVersion % 2 ^ 32).toNat % 256,
        (req.ProtocolVersion % 2 ^ 32).toNat / 256 % 256,
        (req.ProtocolVersion % 2 ^ 32).toNat / 2 ^ 16 % 256,
        (req.ProtocolVersion % 2 ^ 32).toNat / 2 ^ 24 % 256]
    ++ [(req.Encoding % 2 ^ 32).toNat % 256,
        (req.Encoding % 2 ^ 32).toNat / 256 % 256,
        (req.Encoding % 2 ^ 32).toNat / 2 ^ 16 % 256,
        (req.Encoding % 2 ^ 32).toNat / 2 ^ 24 % 256]
    ++ truncPad4 (req.ProtocolType.toList.map Char.toNat), ?_, ?_, ?_, ?_⟩
  · unfold EncodingRequest.to_binary
    simp only [packU16_ok 16 (by omega) (by omega), packU16_ok req.«Type» ht.1 ht.2,
      packI32_ok req.ProtocolVersion hv.1 hv.2, packI32_ok req.Encoding he.1 he.2, e5]
    rfl
  · simp only [List.append_assoc, List.length_append, List.length_cons, List.length_nil,
      truncPad4_length]
  · rfl
  · rfl

/-- C10 witness: a 7-character tag is truncated to its first 4 bytes and the
output is still exactly 16 bytes with Size = 16. -/
theorem to_binary_always_16_bytes_witness :
    (0 ≤ ({ ProtocolType := "DTCLONG" } : EncodingRequest).«Type» ∧
      ({ ProtocolType := "DTCLONG" } : EncodingRequest).«Type» < 65536) ∧
    (({ ProtocolType := "DTCLONG" } : EncodingRequest).ProtocolType.toList.all
      (fun c => c.toNat < 128) = true) ∧
    ∃ bs, EncodingRequest.to_binary { ProtocolType := "DTCLONG" } = .ok bs ∧
      bs.length = 16 ∧ bs.take 2 = [16, 0] ∧
      bs.drop 12 =
        truncPad4 (({ ProtocolType := "DTCLONG" } : EncodingRequest).ProtocolType.toList.map
          Char.toNat) :=
  ⟨by decide, by decide,
    to_binary_always_16_bytes { ProtocolType := "DTCLONG" }
      (by decide) (by decide) (by decide) (by decide)⟩

/-- One `send(message, set_request_id=True)` call on a connected client whose
message has a `RequestID` field: the message is stamped with
`current_request_id` and the counter advances by one. -/
theorem send_stamps_request_id (st : ClientState) (message : TypedMsg)
    (hc : st.connected = true)
    (hcon : message.schema.contains "RequestID" = true) :
    DTCClient.send st message true false 0 =
      .ok ({ st with current_request_id := st.current_request_id + 1 },
        { message with fields := fun f =>
            if f == "RequestID" then some (.intV st.current_request_id)
            else message.fields f },
        to_json message.tid message.schema (fun f =>
            if f == "RequestID" then some (.intV st.current_request_id)
            else message.fields f)) := by
  unfold DTCClient.send
  rw [hc]
  simp only [hcon]
  rfl

/-- The ids assigned by consecutive stamped sends count up from the current
value of the request counter. -/
theorem sendSeq_ids_general (msgs : List TypedMsg) :
    ∀ st : ClientState, st.connected = true →
      (∀ m ∈ msgs, m.schema.contains "RequestID" = true) →
      (sendSeq st msgs).1 =
        (List.range msgs.length).map (fun (i : Nat) => st.current_request_id + (i : Int)) := by
  induction msgs with
  | nil =>
    intro st hc hall
    rfl
  | cons message rest ih =>
    intro st hc hall
    have hcon : message.schema.contains "RequestID" = true :=
      hall message (List.mem_cons_self _ _)
    have hsend := send_stamps_request_id st message hc hcon
    unfold sendSeq
    rw [hsend]
    simp only
    rw [if_pos (show ("RequestID" == "RequestID") = true from rfl)]
    show st.current_request_id :: (sendSeq _ rest).1 = _
    rw [ih { st with current_request_id := st.current_request_id + 1 } hc
      (fun m hm => hall m (List.mem_cons_of_mem _ hm))]
    rw [List.length_cons, List.range_succ_eq_map, List.map_cons, List.map_map]
    simp only [Nat.cast_zero, add_zero]
    congr 1
    apply List.map_congr_left
    intro a _
    simp only [Function.comp_apply, Nat.cast_succ]
    ring

/-- C5: starting from a freshly connected client (request counter at 1), N
consecutive `send(message, set_request_id=True)` calls on messages carrying a
`RequestID` field assign exactly the ids `1, 2, ..., N` in call order; the
assigned ids are pairwise strictly increasing, so none is ever reused within
the connection's lifetime. -/
theorem send_assigns_request_ids_1_to_N (msgs : List TypedMsg) (st : ClientState)
    (hc : st.connected = true) (hid : st.current_request_id = 1)
    (hall : ∀ m ∈ msgs, m.schema.contains "RequestID" = true) :
    (sendSeq st msgs).1 = (List.range msgs.length).map (fun (i : Nat) => (i : Int) + 1) ∧
    List.Pairwise (· < ·) (sendSeq st msgs).1 := by
  have h := sendSeq_ids_general msgs st hc hall
  rw [hid] at h
  have heq : (sendSeq st msgs).1 = (List.range msgs.length).map (fun (i : Nat) => (i : Int) + 1) := by
    rw [h]
    apply List.map_congr_left
    intro a _
    ring
  refine ⟨heq, ?_⟩
  rw [heq]
  refine List.Pairwise.map _ ?_ (List.pairwise_lt_range msgs.length)
  intro a b hab
  have : (a : Int) < (b : Int) := by exact_mod_cast hab
  omega

/-- C5 witness: three stamped sends of `AccountBalanceRequest` (type 601)
from a fresh connected client get the ids 1, 2, 3. -/
theorem send_assigns_request_ids_witness :
    ({ connected := true } : ClientState).connected = true ∧
    ({ connected := true } : ClientState).current_request_id = 1 ∧
    ((sendSeq { connected := true }
        [⟨601, ["RequestID", "TradeAccount"], fun _ => none⟩,
         ⟨601, ["RequestID", "TradeAccount"], fun _ => none⟩,
         ⟨601, ["RequestID", "TradeAccount"], fun _ => none⟩]).1 =
      (List.range 3).map (fun (i : Nat) => (i : Int) + 1) ∧
      List.Pairwise (· < ·) (sendSeq { connected := true }
        [⟨601, ["RequestID", "TradeAccount"], fun _ => none⟩,
         ⟨601, ["RequestID", "TradeAccount"], fun _ => none⟩,
         ⟨601, ["RequestID", "TradeAccount"], fun _ => none⟩]).1) :=
  ⟨rfl, rfl,
    send_assigns_request_ids_1_to_N _ { connected := true } rfl rfl
      (by intro m hm; simp only [List.mem_cons, List.not_mem_nil, or_false] at hm
          rcases hm with rfl | rfl | rfl <;> rfl)⟩

/-- A buffer containing no NUL byte splits into no complete frame; it stays
buffered whole. -/
theorem splitFrames_no_nul (bs : List Nat) (h : ∀ b ∈ bs, b ≠ 0) :
    splitFrames bs = ([], bs) := by
  induction bs with
  | nil => rfl
  | cons b rest ih =>
    have hb : (b == 0) = false := by simpa using h b (List.mem_cons_self _ _)
    unfold splitFrames
    rw [ih (fun x hx => h x (List.mem_cons_of_mem _ hx)), hb]
    rfl

/-- The one-step unfolding of `splitFrames` on a cons cell. -/
theorem splitFrames_cons (b : Nat) (rest : List Nat) :
    splitFrames (b :: rest) =
      match splitFrames rest with
      | (fs, tail) =>
        if b == 0 then ([] :: fs, tail)
        else
          match fs with
          | [] => ([], b :: tail)
          | f :: fs' => ((b :: f) :: fs', tail) := by
  rfl

/-- A NUL-free segment followed by a NUL terminator splits off as one
complete frame; the remainder of the buffer is split independently. -/
theorem splitFrames_complete_frame (f rest : List Nat) (hf : ∀ b ∈ f, b ≠ 0) :
    splitFrames (f ++ 0 :: rest) =
      (f :: (splitFrames rest).1, (splitFrames rest).2) := by
  induction f with
  | nil =>
    rcases h : splitFrames rest with ⟨fs, tail⟩
    rw [List.nil_append, splitFrames_cons, h]
    rfl
  | cons a t ih =>
    have ha : (a == 0) = false := by simpa using hf a (List.mem_cons_self _ _)
    rcases h : splitFrames rest with ⟨fs, tail⟩
    rw [List.cons_append, splitFrames_cons,
      ih (fun x hx => hf x (List.mem_cons_of_mem _ hx)), h, ha]
    rfl

/-- `_read_socket` on one non-empty received chunk, in closed form. -/
theorem readSocket_chunk (dec : List Nat → Option DTCMsg) (st : ClientState)
    (hc : st.connected = true) (bytes : List Nat) (hne : bytes ≠ []) :
    DTCClient.readSocket dec st (some bytes) =
      match splitFrames (st.buffer ++ bytes) with
      | (frames, restB) =>
        { st with
          buffer := restB
          queue := st.queue ++ frames.filterMap (fun f =>
            if f.isEmpty then none else dec f) } := by
  obtain ⟨a, t, rfl⟩ : ∃ a t, bytes = a :: t := by
    cases bytes with
    | nil => exact absurd rfl hne
    | cons a t => exact ⟨a, t, rfl⟩
  unfold DTCClient.readSocket
  rw [hc]
  rfl

/-- Feeding NUL-free bytes never yields a message: they only accumulate in
the buffer. -/
theorem readSocket_no_nul_accumulates (dec : List Nat → Option DTCMsg) :
    ∀ (bs : List Nat) (st : ClientState), st.connected = true →
      (∀ b ∈ st.buffer ++ bs, b ≠ 0) →
      feedChunks dec st (bs.map (fun b => [b])) =
        { st with buffer := st.buffer ++ bs } := by
  intro bs
  induction bs with
  | nil =>
    intro st hc h
    simp [feedChunks]
  | cons b t ih =>
    intro st hc h
    have hb1 : ∀ x ∈ st.buffer ++ [b], x ≠ 0 := by
      intro x hx
      apply h x
      rcases List.mem_append.mp hx with hx1 | hx2
      · exact List.mem_append.mpr (Or.inl hx1)
      · simp only [List.mem_singleton] at hx2
        subst hx2
        exact List.mem_append.mpr (Or.inr (List.mem_cons_self _ _))
    have hstep : DTCClient.readSocket dec st (some [b]) =
        { st with buffer := st.buffer ++ [b] } := by
      rw [readSocket_chunk dec st hc [b] (by simp), splitFrames_no_nul _ hb1]
      simp
    have ht : ∀ x ∈ ({ st with buffer := st.buffer ++ [b] } : ClientState).buffer ++ t,
        x ≠ 0 := by
      intro x hx
      apply h x
      simp only [List.append_assoc, List.singleton_append] at hx
      exact hx
    have := ih { st with buffer := st.buffer ++ [b] } hc ht
    show feedChunks dec (DTCClient.readSocket dec st (some [b])) (t.map (fun x => [x])) = _
    rw [hstep, this]
    simp

/-- `_read_socket` on a chunk holding two complete NUL-terminated frames and
a trailing partial frame: both messages are enqueued in arrival order and the
partial frame stays in the buffer. -/
theorem readSocket_two_frames (dec : List Nat → Option DTCMsg) (st : ClientState)
    (hc : st.connected = true) (hbuf : st.buffer = [])
    (f1 f2 rest : List Nat) (m1 m2 : DTCMsg)
    (h1 : ∀ b ∈ f1, b ≠ 0) (h1ne : f1 ≠ [])
    (h2 : ∀ b ∈ f2, b ≠ 0) (h2ne : f2 ≠ [])
    (hr : ∀ b ∈ rest, b ≠ 0)
    (hd1 : dec f1 = some m1) (hd2 : dec f2 = some m2) :
    DTCClient.readSocket dec st (some (f1 ++ 0 :: (f2 ++ 0 :: rest))) =
      { st with buffer := rest, queue := st.queue ++ [m1, m2] } := by
  have hne : f1 ++ 0 :: (f2 ++ 0 :: rest) ≠ [] := by
    cases f1 <;> simp
  rw [readSocket_chunk dec st hc _ hne, hbuf, List.nil_append,
    splitFrames_complete_frame f1 _ h1, splitFrames_complete_frame f2 _ h2,
    splitFrames_no_nul rest hr]
  have hf1e : f1.isEmpty = false := by
    cases f1 with
    | nil => exact absurd rfl h1ne
    | cons a t => rfl
  have hf2e : f2.isEmpty = false := by
    cases f2 with
    | nil => exact absurd rfl h2ne
    | cons a t => rfl
  simp [hf1e, hf2e, hd1, hd2, h1ne, h2ne]

/-- C6: on the inbound stream, (1) feeding NUL-free bytes of a frame one at a
time to `_read_socket` decodes no message — the bytes only accumulate in the
buffer; (2) once the `0x00` terminator arrives, the buffered frame is decoded
and enqueued; (3) a single chunk holding two complete NUL-terminated frames
and a trailing partial frame enqueues both decoded messages in arrival order
and leaves exactly the partial frame in the buffer for the next read. -/
theorem frame_codec_stream_behavior (dec : List Nat → Option DTCMsg)
    (st : ClientState) (hc : st.connected = true) (hbuf : st.buffer = [])
    (f1 f2 rest : List Nat) (m1 m2 : DTCMsg)
    (h1 : ∀ b ∈ f1, b ≠ 0) (h1ne : f1 ≠ [])
    (h2 : ∀ b ∈ f2, b ≠ 0) (h2ne : f2 ≠ [])
    (hr : ∀ b ∈ rest, b ≠ 0)
    (hd1 : dec f1 = some m1) (hd2 : dec f2 = some m2) :
    feedChunks dec st (f1.map (fun b => [b])) = { st with buffer := f1 } ∧
    DTCClient.readSocket dec (feedChunks dec st (f1.map (fun b => [b]))) (some [0]) =
      { st with buffer := [], queue := st.queue ++ [m1] } ∧
    DTCClient.readSocket dec st (some (f1 ++ 0 :: (f2 ++ 0 :: rest))) =
      { st with buffer := rest, queue := st.queue ++ [m1, m2] } := by
  have hacc : feedChunks dec st (f1.map (fun b => [b])) = { st with buffer := f1 } := by
    have := readSocket_no_nul_accumulates dec f1 st hc (by rw [hbuf]; simpa using h1)
    rw [hbuf] at this
    simpa using this
  refine ⟨hacc, ?_, readSocket_two_frames dec st hc hbuf f1 f2 rest m1 m2
    h1 h1ne h2 h2ne hr hd1 hd2⟩
  rw [hacc, readSocket_chunk dec { st with buffer := f1 } hc [0] (by simp)]
  rw [show ({ st with buffer := f1 } : ClientState).buffer ++ [0] = f1 ++ 0 :: [] from rfl]
  rw [splitFrames_complete_frame f1 [] h1]
  have hf1e : f1.isEmpty = false := by
    cases f1 with
    | nil => exact absurd rfl h1ne
    | cons a t => rfl
  simp [hf1e, hd1, h1ne, show splitFrames ([] : List Nat) = ([], []) from rfl]

/-- C6 witness: two one-byte frames `7b` and `33` with NUL terminators and a
trailing partial byte `09`, against a decoder recognising both frames. -/
theorem frame_codec_stream_behavior_witness :
    ({ connected := true } : ClientState).connected = true ∧
    ({ connected := true } : ClientState).buffer = [] ∧
    (∀ b ∈ ([123] : List Nat), b ≠ 0) ∧ ([123] : List Nat) ≠ [] ∧
    (∀ b ∈ ([51] : List Nat), b ≠ 0) ∧ ([51] : List Nat) ≠ [] ∧
    (∀ b ∈ ([9] : List Nat), b ≠ 0) ∧
    ((fun bs => if bs = [123] then some (DTCMsg.generic (.intV 7))
        else if bs = [51] then some (DTCMsg.generic (.intV 8)) else none) [123] =
      some (DTCMsg.generic (.intV 7))) ∧
    (feedChunks (fun bs => if bs = [123] then some (DTCMsg.generic (.intV 7))
        else if bs = [51] then some (DTCMsg.generic (.intV 8)) else none)
        { connected := true } (([123] : List Nat).map (fun b => [b])) =
      { connected := true, buffer := [123] } ∧
    DTCClient.readSocket (fun bs => if bs = [123] then some (DTCMsg.generic (.intV 7))
        else if bs = [51] then some (DTCMsg.generic (.intV 8)) else none)
        (feedChunks (fun bs => if bs = [123] then some (DTCMsg.generic (.intV 7))
          else if bs = [51] then some (DTCMsg.generic (.intV 8)) else none)
          { connected := true } (([123] : List Nat).map (fun b => [b]))) (some [0]) =
      { connected := true, buffer := [],
        queue := [] ++ [DTCMsg.generic (.intV 7)] } ∧
    DTCClient.readSocket (fun bs => if bs = [123] then some (DTCMsg.generic (.intV 7))
        else if bs = [51] then some (DTCMsg.generic (.intV 8)) else none)
        { connected := true } (some ([123] ++ 0 :: ([51] ++ 0 :: [9]))) =
      { connected := true, buffer := [9],
        queue := [] ++ [DTCMsg.generic (.intV 7), DTCMsg.generic (.intV 8)] }) :=
  ⟨rfl, rfl, by decide, by decide, by decide, by decide, by decide, rfl,
    frame_codec_stream_behavior
      (fun bs => if bs = [123] then some (DTCMsg.generic (.intV 7))
        else if bs = [51] then some (DTCMsg.generic (.intV 8)) else none)
      { connected := true } rfl rfl [123] [51] [9]
      (DTCMsg.generic (.intV 7)) (DTCMsg.generic (.intV 8))
      (by decide) (by decide) (by decide) (by decide) (by decide) rfl rfl⟩

/-- Looking a key up past a non-matching head entry. -/
theorem lookupField_cons_ne (k : FieldName) (p : FieldName × DTCValue) (fr : Frame)
    (h : p.1 ≠ k) : lookupField k (p :: fr) = lookupField k fr := by
  unfold lookupField
  rw [List.find?_cons, show (p.1 == k) = false by simpa using h]

/-- In the encoded frame's tail, a schema field that was non-null in the
message looks up to exactly its value. -/
theorem lookupField_encoded (m : FieldName → Option DTCValue) (f : FieldName)
    (v : DTCValue) (hm : m f = some v) :
    ∀ schema : Schema, f ∈ schema → f ≠ "Size" → f ≠ "Type" →
      lookupField f (schema.filterMap (fun g =>
        if g == "Size" || g == "Type" then none
        else (m g).map (fun w => (g, w)))) = some v := by
  intro schema
  induction schema with
  | nil =>
    intro h
    simp at h
  | cons g t ih =>
    intro hf hS hT
    rw [List.filterMap_cons]
    by_cases hgf : g = f
    · subst hgf
      rw [show (g == "Size" || g == "Type") = false by simp [hS, hT], if_neg (by simp)]
      rw [hm]
      simp only [Option.map_some']
      unfold lookupField
      rw [List.find?_cons, show ((g, v).1 == g) = true by simp]
      rfl
    · have hft : f ∈ t := by
        rcases List.mem_cons.mp hf with h1 | h2
        · exact absurd h1.symm hgf
        · exact h2
      rcases hcond : (g == "Size" || g == "Type") with _ | _
      · rw [if_neg (by simp [hcond])]
        rcases hmg : m g with _ | w
        · simp only [Option.map_none']
          exact ih hft hS hT
        · simp only [Option.map_some']
          rw [lookupField_cons_ne f (g, w) _ (by simpa using hgf)]
          exact ih hft hS hT
      · rw [if_pos (by simp [hcond])]
        exact ih hft hS hT

/-- In the decoded dataclass's field list, each schema field maps to its
looked-up value. -/
theorem find_decoded_field (g : FieldName → Option DTCValue) (f : FieldName) :
    ∀ schema : Schema, f ∈ schema →
      (schema.map (fun x => (x, g x))).find? (fun p => p.1 == f) = some (f, g f) := by
  intro schema
  induction schema with
  | nil =>
    intro h
    simp at h
  | cons a t ih =>
    intro hf
    rw [List.map_cons, List.find?_cons]
    by_cases haf : a = f
    · subst haf
      rw [show ((a, g a).1 == a) = true by simp]
    · have hft : f ∈ t := by
        rcases List.mem_cons.mp hf with h1 | h2
        · exact absurd h1.symm haf
        · exact h2
      rw [show ((a, g a).1 == f) = false by simpa using haf]
      exact ih hft

/-- Every schema in the registry avoids the reserved dict keys `Type` and
`Size`. -/
theorem lookupSchema_wf (tid : Int) (schema : Schema)
    (hreg : lookupSchema tid = some schema) :
    schema.contains "Type" = false ∧ schema.contains "Size" = false := by
  unfold lookupSchema at hreg
  rcases hfind : MESSAGE_MAP.find? (fun p => p.1 == tid) with _ | p <;> rw [hfind] at hreg
  · cases hreg
  · have hmem := List.mem_of_find?_eq_some hfind
    have hall := message_map_wf
    rw [List.all_eq_true] at hall
    have h2 := hall p hmem
    simp only [Bool.and_eq_true, Bool.not_eq_true'] at h2
    simp only [Option.map_some'] at hreg
    cases hreg
    exact h2

/-- C4: for every type id registered in `MESSAGE_MAP` with its field schema,
and every message `m` of that type, decoding the encoding of `m`
(`from_json (to_json m)`) yields a typed message of the same type id in
which every schema field that was non-null in `m` carries exactly the same
value. -/
theorem decode_encode_preserves_nonnull (tid : Int) (schema : Schema)
    (hreg : lookupSchema tid = some schema) (m : FieldName → Option DTCValue) :
    ∃ fields, from_json (to_json tid schema m) = .ok (.typed tid fields) ∧
      ∀ f v, m f = some v → f ∈ schema →
        fields.find? (fun p => p.1 == f) = some (f, some v) := by
  obtain ⟨hT, hS⟩ := lookupSchema_wf tid schema hreg
  have htv : to_json tid schema m =
      ("Type", .intV tid) :: schema.filterMap (fun g =>
        if g == "Size" || g == "Type" then none
        else (m g).map (fun w => (g, w))) := by
    unfold to_json
    rw [hT]
    rfl
  have hlk : lookupField "Type" (to_json tid schema m) = some (.intV tid) := by
    rw [htv]
    rfl
  refine ⟨schema.map (fun f => (f, lookupField f (to_json tid schema m))), ?_, ?_⟩
  · unfold from_json
    rw [hlk]
    show fromJsonDispatch tid (to_json tid schema m) =
      Except.ok (DTCMsg.typed tid
        (schema.map (fun f => (f, lookupField f (to_json tid schema m)))))
    unfold fromJsonDispatch
    rw [hreg]
  · intro f v hm hf
    have hcf : schema.contains f = true := List.elem_eq_true_of_mem hf
    have hfT : f ≠ "Type" := by
      intro e
      rw [e] at hcf
      rw [hcf] at hT
      cases hT
    have hfS : f ≠ "Size" := by
      intro e
      rw [e] at hcf
      rw [hcf] at hS
      cases hS
    rw [find_decoded_field (fun x => lookupField x (to_json tid schema m)) f schema hf]
    have hval : lookupField f (to_json tid schema m) = some v := by
      rw [htv, lookupField_cons_ne f ("Type", .intV tid) _ (Ne.symm hfT)]
      exact lookupField_encoded m f v hm schema hf hfS hfT
    rw [hval]

/-- C4 witness: a Heartbeat (type 3) with one non-null field round-trips. -/
theorem decode_encode_preserves_nonnull_witness :
    lookupSchema 3 = some ["NumDroppedMessages", "CurrentDateTime"] ∧
    ∃ fields, from_json (to_json 3 ["NumDroppedMessages", "CurrentDateTime"]
        (fun f => if f = "NumDroppedMessages" then some (.intV 5) else none)) =
      .ok (.typed 3 fields) ∧
      ∀ f v, (fun f => if f = "NumDroppedMessages" then some (.intV 5) else none) f
          = some v →
        f ∈ ["NumDroppedMessages", "CurrentDateTime"] →
        fields.find? (fun p => p.1 == f) = some (f, some v) :=
  ⟨rfl, decode_encode_preserves_nonnull 3 ["NumDroppedMessages", "CurrentDateTime"] rfl
    (fun f => if f = "NumDroppedMessages" then some (.intV 5) else none)⟩
